import Mathlib

/-!
Shallow embedding of the diagnostic utility in `src/main.rs`.

The program parses four boolean command-line flags, acquires a GPU device,
allocates two query sets and a resolve buffer, optionally records and submits
an instrumented render pass, then records and submits a final command encoder
that resolves the requested queries. We embed it as a pure function from the
flags to the list of GPU-API operations the program performs, in program
order, together with a small model of the fallible device-acquisition phase.
-/

/-- The wgpu library constant `QUERY_RESOLVE_BUFFER_ALIGNMENT` (an external
constant of the graphics library, not defined in this repository): 256. -/
def QUERY_RESOLVE_BUFFER_ALIGNMENT : Nat := 256

/-- The four command-line flags of `struct Args`, in source order. -/
structure Args where
  query_stats : Bool
  query_times : Bool
  pass_times : Bool
  pass_stats : Bool
deriving DecidableEq, Fintype

/-- The two query sets the program creates, identified by their labels in the
source (`"pipeline statistics"` and `"timestamps"`). -/
inductive QuerySetId where
  | pipelineStatistics
  | timestamps
deriving DecidableEq, Fintype

/-- The `ty` field of `wgpu::QuerySetDescriptor` as used by the program:
`QueryType::PipelineStatistics(PipelineStatisticsTypes::all())` or
`QueryType::Timestamp`. -/
inductive QueryType where
  | pipelineStatisticsAll
  | timestamp
deriving DecidableEq, Fintype

/-- `wgpu::RenderPassTimestampWrites` as constructed in `do_render_pass`. -/
structure RenderPassTimestampWrites where
  query_set : QuerySetId
  beginning_of_pass_write_index : Option Nat
  end_of_pass_write_index : Option Nat
deriving DecidableEq

/-- One GPU-API operation performed by the program, in the order the source
issues it. `resolveQuerySet` carries the Rust range bounds `range_start ..
range_end` (half-open, so the resolved query indices are `range_start ≤ i <
range_end`) and the destination byte offset. `draw` and `dispatch` are
commands a render pass could contain; the program never issues them. -/
inductive Op where
  | createQuerySet (id : QuerySetId) (ty : QueryType) (count : Nat)
  | createBuffer (size : Nat) (usage_query_resolve usage_copy_src mapped_at_creation : Bool)
  | createCommandEncoder
  | createTexture (width height : Nat)
  | beginRenderPass (timestamp_writes : Option RenderPassTimestampWrites)
  | beginPipelineStatisticsQuery (id : QuerySetId) (index : Nat)
  | endPipelineStatisticsQuery
  | endRenderPass
  | resolveQuerySet (id : QuerySetId) (range_start range_end dest_offset : Nat)
  | draw
  | dispatch
  | submit
  | wait
deriving DecidableEq

/-- `Backend::submit_and_wait`: finish and submit the encoder, then block by
polling the device until the submission completes. -/
def submit_and_wait : List Op :=
  [Op.submit, Op.wait]

/-- `fn do_render_pass`: create an encoder and a 1×1 render-target texture,
begin a render pass (with the optional timestamp writes at begin index 0 and
end index 1), optionally begin and immediately end a pipeline-statistics
query at index 0, end the pass (`drop`), and submit-and-wait. -/
def do_render_pass (timestamp_query : Option QuerySetId)
    (pipeline_statistics_query : Option QuerySetId) : List Op :=
  [Op.createCommandEncoder,
   Op.createTexture 1 1,
   Op.beginRenderPass (timestamp_query.map fun q =>
     { query_set := q
       beginning_of_pass_write_index := some 0
       end_of_pass_write_index := some 1 })]
  ++ (match pipeline_statistics_query with
      | some q => [Op.beginPipelineStatisticsQuery q 0, Op.endPipelineStatisticsQuery]
      | none => [])
  ++ [Op.endRenderPass]
  ++ submit_and_wait

/-- The operation trace of `fn main` after successful device acquisition:
create the pipeline-statistics query set (count 1), the timestamps query set
(count 3), the resolve buffer (`QUERY_RESOLVE_BUFFER_ALIGNMENT * 2` bytes,
usage `QUERY_RESOLVE | COPY_SRC`); if `pass_stats || pass_times`, run
`do_render_pass` passing each query set iff its flag is set
(`flag.then_some(..)`); then create the resolve encoder, resolve the
pipeline-statistics queries `0..1` at offset 0 if `query_stats`, resolve the
timestamp queries `0..1` at offset `QUERY_RESOLVE_BUFFER_ALIGNMENT` if
`query_times`, and submit-and-wait. -/
def main_trace (args : Args) : List Op :=
  [Op.createQuerySet QuerySetId.pipelineStatistics QueryType.pipelineStatisticsAll 1,
   Op.createQuerySet QuerySetId.timestamps QueryType.timestamp 3,
   Op.createBuffer (QUERY_RESOLVE_BUFFER_ALIGNMENT * 2) true true false]
  ++ (if args.pass_stats || args.pass_times then
        do_render_pass
          (if args.pass_times then some QuerySetId.timestamps else none)
          (if args.pass_stats then some QuerySetId.pipelineStatistics else none)
      else [])
  ++ [Op.createCommandEncoder]
  ++ (if args.query_stats then
        [Op.resolveQuerySet QuerySetId.pipelineStatistics 0 1 0]
      else [])
  ++ (if args.query_times then
        [Op.resolveQuerySet QuerySetId.timestamps 0 1 QUERY_RESOLVE_BUFFER_ALIGNMENT]
      else [])
  ++ submit_and_wait

/-- Environment of a run: whether `request_adapter` and `request_device`
succeed. Both `.expect` calls of `Backend::new` panic on failure. -/
structure Env where
  adapter_available : Bool
  device_available : Bool
deriving DecidableEq, Fintype

/-- The two fatal setup errors of `Backend::new`: `expect("no adapter")` and
`expect("could not open device")`. -/
inductive SetupError where
  | noAdapter
  | couldNotOpenDevice
deriving DecidableEq, Fintype

/-- The features `Backend::new` requests on the device. -/
structure Backend where
  timestamp_query : Bool
  timestamp_query_inside_encoders : Bool
  timestamp_query_inside_passes : Bool
  pipeline_statistics_query : Bool
deriving DecidableEq

/-- `Backend::new`: request an adapter (panic if none), then open a device
with the four required query features (panic on failure). -/
def Backend.new (env : Env) : Except SetupError Backend :=
  if env.adapter_available = false then
    Except.error SetupError.noAdapter
  else if env.device_available = false then
    Except.error SetupError.couldNotOpenDevice
  else
    Except.ok
      { timestamp_query := true
        timestamp_query_inside_encoders := true
        timestamp_query_inside_passes := true
        pipeline_statistics_query := true }

/-- Outcome of a whole process run: normal termination with the performed
operation trace, or abnormal termination (panic) with the operations
performed before the abort. -/
inductive RunResult where
  | ok (trace : List Op)
  | fatal (err : SetupError) (trace : List Op)
deriving DecidableEq

/-- The operations the run performed (whether or not it terminated
normally). -/
def RunResult.opsPerformed : RunResult → List Op
  | RunResult.ok t => t
  | RunResult.fatal _ t => t

/-- Whether the run terminated abnormally. -/
def RunResult.isFatal : RunResult → Bool
  | RunResult.ok _ => false
  | RunResult.fatal _ _ => true

/-- Process exit code: 0 on normal termination, none (abnormal) otherwise. -/
def exit_code : RunResult → Option Nat
  | RunResult.ok _ => some 0
  | RunResult.fatal _ _ => none

/-- `fn main`: `Backend::new()` runs before any query-set, buffer, pass or
resolve operation; if it panics the process aborts with nothing performed,
otherwise the program performs `main_trace` and exits normally. -/
def run (env : Env) (args : Args) : RunResult :=
  match Backend.new env with
  | Except.error e => RunResult.fatal e []
  | Except.ok _ => RunResult.ok (main_trace args)

/-- Is `o` a `resolveQuerySet` targeting query set `s`? -/
def Op.isResolveOf (o : Op) (s : QuerySetId) : Bool :=
  match o with
  | Op.resolveQuerySet id _ _ _ => decide (id = s)
  | _ => false

/-- Is `o` a `beginRenderPass`? -/
def Op.isBeginRenderPass : Op → Bool
  | Op.beginRenderPass _ => true
  | _ => false

/-- Is `o` a `beginRenderPass` carrying timestamp writes? -/
def Op.hasTimestampWrites : Op → Bool
  | Op.beginRenderPass (some _) => true
  | _ => false

/-- Is `o` an `endRenderPass`? -/
def Op.isEndRenderPass : Op → Bool
  | Op.endRenderPass => true
  | _ => false

/-- Is `o` a `beginPipelineStatisticsQuery`? -/
def Op.isBeginStatsQuery : Op → Bool
  | Op.beginPipelineStatisticsQuery _ _ => true
  | _ => false

/-- Is `o` an `endPipelineStatisticsQuery`? -/
def Op.isEndStatsQuery : Op → Bool
  | Op.endPipelineStatisticsQuery => true
  | _ => false

/-- Is `o` a `createQuerySet`? -/
def Op.isCreateQuerySet : Op → Bool
  | Op.createQuerySet _ _ _ => true
  | _ => false

/-- Is `o` a `createBuffer`? -/
def Op.isCreateBuffer : Op → Bool
  | Op.createBuffer _ _ _ _ => true
  | _ => false

/-- Is `o` a `createCommandEncoder`? -/
def Op.isCreateCommandEncoder : Op → Bool
  | Op.createCommandEncoder => true
  | _ => false

/-- Is `o` a `submit`? -/
def Op.isSubmit : Op → Bool
  | Op.submit => true
  | _ => false

/-- Is `o` a `draw`? -/
def Op.isDraw : Op → Bool
  | Op.draw => true
  | _ => false

/-- Is `o` a `dispatch`? -/
def Op.isDispatch : Op → Bool
  | Op.dispatch => true
  | _ => false

/-- Is `o` one of the render-pass operations (texture creation, pass
begin/end, pipeline-statistics scope begin/end)? -/
def Op.isPassOp : Op → Bool
  | Op.createTexture _ _ => true
  | Op.beginRenderPass _ => true
  | Op.beginPipelineStatisticsQuery _ _ => true
  | Op.endPipelineStatisticsQuery => true
  | Op.endRenderPass => true
  | _ => false

/-- Every `submit` in the trace is immediately followed by a blocking
`wait`. -/
def submits_waited : List Op → Bool
  | [] => true
  | Op.submit :: Op.wait :: rest => submits_waited rest
  | Op.submit :: _ => false
  | _ :: rest => submits_waited rest

/-- Claim C1 as stated is false: with only `--query-times` set, the program
resolves the timestamp query range `0..1` (only index 0), not indices 0 and 1
(range `0..2`): the trace contains the single-index resolve at the alignment
offset and contains no resolve of the timestamp set covering index 1. -/
theorem C1_range_counterexample :
    (main_trace ⟨false, true, false, false⟩).filter
        (fun o => o.isResolveOf QuerySetId.timestamps)
      = [Op.resolveQuerySet QuerySetId.timestamps 0 1 QUERY_RESOLVE_BUFFER_ALIGNMENT]
    ∧ Op.resolveQuerySet QuerySetId.timestamps 0 2 QUERY_RESOLVE_BUFFER_ALIGNMENT
        ∉ main_trace ⟨false, true, false, false⟩ := by
  decide

/-- Claim C1 (amended): when the `--query-times` flag is set, the program
issues exactly one resolve operation on the timestamp query set, copying the
single timestamp result at index 0 (query range `0..1`) into the resolve
buffer at the backend's query-resolve alignment offset (the second half of
the buffer). -/
theorem C1_timestamp_resolve (args : Args) (h : args.query_times = true) :
    (main_trace args).filter (fun o => o.isResolveOf QuerySetId.timestamps)
      = [Op.resolveQuerySet QuerySetId.timestamps 0 1 QUERY_RESOLVE_BUFFER_ALIGNMENT] := by
  revert args
  decide

/-- Witness for C1 at the flag vector `--query-times` only. -/
theorem C1_timestamp_resolve_witness :
    (main_trace ⟨false, true, true, true⟩).filter
        (fun o => o.isResolveOf QuerySetId.timestamps)
      = [Op.resolveQuerySet QuerySetId.timestamps 0 1 QUERY_RESOLVE_BUFFER_ALIGNMENT] :=
  C1_timestamp_resolve ⟨false, true, true, true⟩ rfl

/-- Claim C2: for every flag combination, the resolve operations targeting
the pipeline-statistics query set are exactly the single resolve at buffer
offset 0 when `--query-stats` is set and none otherwise; the resolve
operations targeting the timestamp query set are exactly the single resolve
at the alignment-unit offset when `--query-times` is set and none
otherwise. -/
theorem C2_resolves_iff_flags :
    ∀ args : Args,
      (main_trace args).filter (fun o => o.isResolveOf QuerySetId.pipelineStatistics)
        = (if args.query_stats then
             [Op.resolveQuerySet QuerySetId.pipelineStatistics 0 1 0]
           else [])
      ∧ (main_trace args).filter (fun o => o.isResolveOf QuerySetId.timestamps)
        = (if args.query_times then
             [Op.resolveQuerySet QuerySetId.timestamps 0 1 QUERY_RESOLVE_BUFFER_ALIGNMENT]
           else []) := by
  decide

/-- Claim C3: when both `--pass-times` and `--pass-stats` are false, the
trace contains no render-pass operation at all, and only the single final
resolve submission occurs (one submit, immediately waited). -/
theorem C3_no_pass_when_flags_off (args : Args)
    (ht : args.pass_times = false) (hs : args.pass_stats = false) :
    (main_trace args).filter Op.isPassOp = []
    ∧ (main_trace args).countP Op.isSubmit = 1
    ∧ submits_waited (main_trace args) = true := by
  revert args
  decide

/-- Witness for C3 with both resolution flags set and both pass flags
clear. -/
theorem C3_no_pass_when_flags_off_witness :
    (main_trace ⟨true, true, false, false⟩).filter Op.isPassOp = []
    ∧ (main_trace ⟨true, true, false, false⟩).countP Op.isSubmit = 1
    ∧ submits_waited (main_trace ⟨true, true, false, false⟩) = true :=
  C3_no_pass_when_flags_off ⟨true, true, false, false⟩ rfl rfl

/-- Claim C4: for every flag combination, the render-pass-begin operations
carrying timestamp writes are exactly one — with the timestamp query set,
begin-of-pass index 0 and end-of-pass index 1 — when `--pass-times` is true,
and none when it is false; moreover when `--pass-times` is true that is the
only render-pass begun at all, so no other timestamp index is ever
written. -/
theorem C4_pass_timestamp_writes :
    ∀ args : Args,
      (main_trace args).filter (fun o => o.isBeginRenderPass && o.hasTimestampWrites)
        = (if args.pass_times then
             [Op.beginRenderPass (some
               { query_set := QuerySetId.timestamps
                 beginning_of_pass_write_index := some 0
                 end_of_pass_write_index := some 1 })]
           else [])
      ∧ (args.pass_times = true →
          (main_trace args).filter Op.isBeginRenderPass
            = [Op.beginRenderPass (some
                { query_set := QuerySetId.timestamps
                  beginning_of_pass_write_index := some 0
                  end_of_pass_write_index := some 1 })]) := by
  decide

/-- Witness for C4's conditional part at the flag vector `--pass-times`
only. -/
theorem C4_pass_timestamp_writes_witness :
    (main_trace ⟨false, false, true, false⟩).filter Op.isBeginRenderPass
      = [Op.beginRenderPass (some
          { query_set := QuerySetId.timestamps
            beginning_of_pass_write_index := some 0
            end_of_pass_write_index := some 1 })] :=
  (C4_pass_timestamp_writes ⟨false, false, true, false⟩).2 rfl

/-- Claim C5: when `--pass-stats` is true, the pipeline-statistics query
scope is opened exactly once — at index 0 of the pipeline-statistics query
set — and closed exactly once, strictly after the (unique) render-pass begin
and strictly before the (unique) render-pass end, and no draw or dispatch
command occurs anywhere in the trace. -/
theorem C5_stats_scope_in_pass (args : Args) (h : args.pass_stats = true) :
    (main_trace args).countP Op.isBeginStatsQuery = 1
    ∧ (main_trace args).countP Op.isEndStatsQuery = 1
    ∧ (main_trace args).filter Op.isBeginStatsQuery
        = [Op.beginPipelineStatisticsQuery QuerySetId.pipelineStatistics 0]
    ∧ (main_trace args).countP Op.isBeginRenderPass = 1
    ∧ (main_trace args).countP Op.isEndRenderPass = 1
    ∧ (main_trace args).findIdx Op.isBeginRenderPass
        < (main_trace args).findIdx Op.isBeginStatsQuery
    ∧ (main_trace args).findIdx Op.isBeginStatsQuery
        < (main_trace args).findIdx Op.isEndStatsQuery
    ∧ (main_trace args).findIdx Op.isEndStatsQuery
        < (main_trace args).findIdx Op.isEndRenderPass
    ∧ (main_trace args).countP Op.isDraw = 0
    ∧ (main_trace args).countP Op.isDispatch = 0 := by
  revert args
  decide

/-- Witness for C5 at the flag vector `--pass-stats` only. -/
theorem C5_stats_scope_in_pass_witness :
    (main_trace ⟨false, false, false, true⟩).countP Op.isBeginStatsQuery = 1
    ∧ (main_trace ⟨false, false, false, true⟩).countP Op.isEndStatsQuery = 1
    ∧ (main_trace ⟨false, false, false, true⟩).filter Op.isBeginStatsQuery
        = [Op.beginPipelineStatisticsQuery QuerySetId.pipelineStatistics 0]
    ∧ (main_trace ⟨false, false, false, true⟩).countP Op.isBeginRenderPass = 1
    ∧ (main_trace ⟨false, false, false, true⟩).countP Op.isEndRenderPass = 1
    ∧ (main_trace ⟨false, false, false, true⟩).findIdx Op.isBeginRenderPass
        < (main_trace ⟨false, false, false, true⟩).findIdx Op.isBeginStatsQuery
    ∧ (main_trace ⟨false, false, false, true⟩).findIdx Op.isBeginStatsQuery
        < (main_trace ⟨false, false, false, true⟩).findIdx Op.isEndStatsQuery
    ∧ (main_trace ⟨false, false, false, true⟩).findIdx Op.isEndStatsQuery
        < (main_trace ⟨false, false, false, true⟩).findIdx Op.isEndRenderPass
    ∧ (main_trace ⟨false, false, false, true⟩).countP Op.isDraw = 0
    ∧ (main_trace ⟨false, false, false, true⟩).countP Op.isDispatch = 0 :=
  C5_stats_scope_in_pass ⟨false, false, false, true⟩ rfl

/-- Claim C6: for every flag combination, the trace creates exactly one
pipeline-statistics query set of capacity 1 and one timestamp query set of
capacity 3 (and no other query set), and exactly one buffer, whose size is
twice the query-resolve alignment with query-resolve and copy-source usage
(not mapped at creation). -/
theorem C6_startup_allocations :
    ∀ args : Args,
      (main_trace args).filter Op.isCreateQuerySet
        = [Op.createQuerySet QuerySetId.pipelineStatistics QueryType.pipelineStatisticsAll 1,
           Op.createQuerySet QuerySetId.timestamps QueryType.timestamp 3]
      ∧ (main_trace args).filter Op.isCreateBuffer
        = [Op.createBuffer (QUERY_RESOLVE_BUFFER_ALIGNMENT * 2) true true false] := by
  decide

/-- Claim C7: if adapter acquisition or device acquisition fails, the run
terminates abnormally with no query-set creation, buffer creation,
render-pass or resolve operation performed. -/
theorem C7_setup_failure_aborts_early (env : Env) (args : Args)
    (h : env.adapter_available = false ∨ env.device_available = false) :
    (run env args).isFatal = true ∧ (run env args).opsPerformed = [] := by
  revert env args
  decide

/-- Witness for C7 with adapter acquisition failing. -/
theorem C7_setup_failure_aborts_early_witness :
    (run ⟨false, true⟩ ⟨true, true, true, true⟩).isFatal = true
    ∧ (run ⟨false, true⟩ ⟨true, true, true, true⟩).opsPerformed = [] :=
  C7_setup_failure_aborts_early ⟨false, true⟩ ⟨true, true, true, true⟩ (Or.inl rfl)

/-- Claim C8: the 16 flag combinations yield exactly 16 distinct operation
traces; every trace performs at most two submissions — two exactly when a
render pass runs, otherwise only the final resolve submission — each submit
immediately followed by one blocking wait, and the trace terminates with the
final submit-wait pair. -/
theorem C8_sixteen_linear_traces :
    (Finset.image main_trace Finset.univ).card = 16
    ∧ ∀ args : Args,
        (main_trace args).countP Op.isSubmit
          = (if args.pass_stats || args.pass_times then 2 else 1)
        ∧ (main_trace args).countP Op.isSubmit ≤ 2
        ∧ submits_waited (main_trace args) = true
        ∧ (main_trace args).drop ((main_trace args).length - 2)
            = [Op.submit, Op.wait] := by
  decide

/-- Claim C9: for a given flag vector, the outcome of a successful run — its
exit code and its full recorded-operation trace — does not depend on the
environment: any two non-fatal runs with the same flags produce identical
results and exit code 0, so the trace is a deterministic function of the
flags alone. -/
theorem C9_deterministic_in_flags (env₁ env₂ : Env) (args : Args)
    (h₁ : (run env₁ args).isFatal = false) (h₂ : (run env₂ args).isFatal = false) :
    run env₁ args = run env₂ args
    ∧ exit_code (run env₁ args) = some 0
    ∧ (run env₁ args).opsPerformed = main_trace args := by
  revert env₁ env₂ args
  decide

/-- Witness for C9: two successful runs with the all-flags-on vector. -/
theorem C9_deterministic_in_flags_witness :
    run ⟨true, true⟩ ⟨true, true, true, true⟩ = run ⟨true, true⟩ ⟨true, true, true, true⟩
    ∧ exit_code (run ⟨true, true⟩ ⟨true, true, true, true⟩) = some 0
    ∧ (run ⟨true, true⟩ ⟨true, true, true, true⟩).opsPerformed
        = main_trace ⟨true, true, true, true⟩ :=
  C9_deterministic_in_flags ⟨true, true⟩ ⟨true, true⟩ ⟨true, true, true, true⟩ rfl rfl

/-- Claim C10: for every flag combination the final resolve-phase encoder is
created and submit-waited unconditionally: the trace always ends with a
submit immediately followed by a blocking wait, the number of encoders and of
submissions is fixed by the pass flags alone (so the resolve submission
happens even when no resolve is recorded), and when both `--query-stats` and
`--query-times` are false the submitted resolve command sequence is empty
(no resolve operation anywhere in the trace). -/
theorem C10_final_submission_unconditional :
    ∀ args : Args,
      (main_trace args).drop ((main_trace args).length - 2) = [Op.submit, Op.wait]
      ∧ (main_trace args).countP Op.isCreateCommandEncoder
          = (if args.pass_stats || args.pass_times then 2 else 1)
      ∧ (main_trace args).countP Op.isSubmit
          = (if args.pass_stats || args.pass_times then 2 else 1)
      ∧ (args.query_stats = false → args.query_times = false →
          (main_trace args).filter
              (fun o => o.isResolveOf QuerySetId.pipelineStatistics
                || o.isResolveOf QuerySetId.timestamps)
            = []) := by
  decide

/-- Witness for C10's conditional part: a run with both pass flags on and
both query flags off still ends with the resolve-phase submit-wait and
records no resolve. -/
theorem C10_final_submission_unconditional_witness :
    (main_trace ⟨false, false, true, true⟩).filter
        (fun o => o.isResolveOf QuerySetId.pipelineStatistics
          || o.isResolveOf QuerySetId.timestamps)
      = [] :=
  (C10_final_submission_unconditional ⟨false, false, true, true⟩).2.2.2 rfl rfl
